import Mathlib

/-!
Shallow embedding of the sail-plan advice pipeline (`handleSubmit` in
`src/App.tsx`) together with the data model it operates on.

Modelling conventions:
* JavaScript strings are Lean `String`s; `String.prototype.trim` and
  `String.prototype.startsWith` are modelled on the underlying character
  lists (`jsTrim`, `jsStartsWith`) so that every definition evaluates in
  the kernel.
* JavaScript numbers (latitude, longitude, wind speed, wind direction)
  are modelled as `Int`; only their decimal rendering enters the claims.
* A JavaScript `Date` is modelled as an absolute instant (minutes since
  the Unix epoch) together with a fixed local-timezone offset in minutes
  (`JsDate`); daylight-saving shifts are outside the model.
* Each external HTTP interaction is modelled by a response oracle stored
  in an `Env`; the pipeline records the calls it issues in a trace of
  `NetCall` values, so "no network call is issued" is a statement about
  that trace.
-/

namespace SailPlan

/-- Model of JavaScript `String.prototype.trim`: drop whitespace
characters from both ends of the character list. -/
def jsTrim (s : String) : String :=
  ⟨((s.data.dropWhile Char.isWhitespace).reverse.dropWhile Char.isWhitespace).reverse⟩

/-- Model of JavaScript `s.startsWith(pre)`: the characters of `pre` are a
prefix of the characters of `s`. -/
def jsStartsWith (s pre : String) : Bool :=
  pre.data.isPrefixOf s.data

/-- Model of JavaScript `Array.prototype.join` with separator `"\n"`. -/
def joinNl : List String → String
  | [] => ""
  | [x] => x
  | x :: y :: xs => x ++ "\n" ++ joinNl (y :: xs)

/-- The string `needle` occurs verbatim somewhere inside `hay`. -/
def strOccurs (needle hay : String) : Prop :=
  ∃ a b, hay = a ++ needle ++ b

/-- The string `hay` ends with the string `needle`. -/
def strEndsIn (needle hay : String) : Prop :=
  ∃ a, hay = a ++ needle

/-! ### JavaScript `Date` model -/

/-- A JavaScript `Date` value at a caller with a fixed UTC offset:
`utcMin` is the instant in minutes since the Unix epoch, `tzOffsetMin`
the local-timezone offset in minutes (local clock = UTC + offset). -/
structure JsDate where
  utcMin : Int
  tzOffsetMin : Int
deriving DecidableEq, Repr

/-- Minutes since the epoch of the local wall-clock reading. -/
def JsDate.localMin (d : JsDate) : Int := d.utcMin + d.tzOffsetMin

/-- Model of `tomorrow.setDate(tomorrow.getDate() + 1)`: advancing the
local calendar day by one while keeping the local clock time adds
exactly 24 hours to the instant (fixed-offset model). -/
def JsDate.addOneLocalDay (d : JsDate) : JsDate :=
  ⟨d.utcMin + 1440, d.tzOffsetMin⟩

/-- Convert a count of days since 1970-01-01 to a proleptic Gregorian
calendar date (year, month, day), following the standard civil-calendar
algorithm. -/
def civilFromDays (z0 : Int) : Int × Int × Int :=
  let z := z0 + 719468
  let era := z.ediv 146097
  let doe := z - era * 146097
  let yoe := (doe - doe.ediv 1460 + doe.ediv 36524 - doe.ediv 146096).ediv 365
  let y := yoe + era * 400
  let doy := doe - (365 * yoe + yoe.ediv 4 - yoe.ediv 100)
  let mp := (5 * doy + 2).ediv 153
  let d := doy - (153 * mp + 2).ediv 5 + 1
  let m := if mp < 10 then mp + 3 else mp - 9
  (if m ≤ 2 then y + 1 else y, m, d)

/-- Zero-pad a month or day number to two digits. -/
def pad2 (n : Int) : String :=
  if n < 10 then "0" ++ toString n else toString n

/-- Zero-pad a year number to four digits, as `toISOString` renders
years in the range 1583-9999. -/
def pad4 (n : Int) : String :=
  if n < 10 then "000" ++ toString n
  else if n < 100 then "00" ++ toString n
  else if n < 1000 then "0" ++ toString n
  else toString n

/-- Render a (year, month, day) triple as `YYYY-MM-DD`. -/
def formatYMD (ymd : Int × Int × Int) : String :=
  pad4 ymd.1 ++ "-" ++ pad2 ymd.2.1 ++ "-" ++ pad2 ymd.2.2

/-- Model of `d.toISOString().split('T')[0]`: the date component of the
ISO rendering, which is taken from the UTC reading of the instant. -/
def isoDateString (d : JsDate) : String :=
  formatYMD (civilFromDays (d.utcMin.ediv 1440))

/-- The target-date string the code computes: `new Date()` advanced by
one local calendar day via `setDate(getDate() + 1)` and then rendered
through `toISOString().split('T')[0]` (a UTC rendering). -/
def tomorrowStr (d : JsDate) : String :=
  isoDateString d.addOneLocalDay

/-- Modelled from the spec for comparison with `tomorrowStr`: the
local-calendar day after the local current date, rendered `YYYY-MM-DD`.
This follows the specification text, not the source. -/
def specLocalTargetDate (d : JsDate) : String :=
  formatYMD (civilFromDays (d.localMin.ediv 1440 + 1))

/-! ### Data model -/

/-- The form inputs (`SailPlanInputs` in the source). -/
structure SailPlanInputs where
  city : String
  state : String
  country : String
  boatModel : String
  availableSails : String
deriving DecidableEq, Repr

/-- One geocoding match (`Geocode` in the source); coordinates are
modelled as integers. -/
structure Geocode where
  lat : Int
  lon : Int
deriving DecidableEq, Repr

/-- Wind data of one forecast interval. -/
structure Wind where
  speed : Int
  deg : Int
deriving DecidableEq, Repr

/-- One forecast list item (`ForecastItem` in the source). -/
structure ForecastItem where
  dt_txt : String
  wind : Wind
deriving DecidableEq, Repr

/-- The forecast response body (`ForecastResponse` in the source). -/
structure ForecastResponse where
  list : List ForecastItem
deriving DecidableEq, Repr

/-- One entry of the wind summary built by the code from the filtered
forecast. -/
structure WindInfo where
  time : String
  speed : Int
  direction : Int
deriving DecidableEq, Repr

/-- The message of a chat-completion choice; `content` is optional. -/
structure ChatMessage where
  content : Option String
deriving DecidableEq, Repr

/-- One chat-completion choice; the message itself is optional, matching
the optional chaining `choices[0]?.message?.content`. -/
structure ChatChoice where
  message : Option ChatMessage
deriving DecidableEq, Repr

/-- A chat-completion response body. -/
structure ChatCompletion where
  choices : List ChatChoice
deriving DecidableEq, Repr

/-- The component state the handler mutates: `advice`, `loading`,
`error`. -/
structure AppState where
  advice : String
  loading : Bool
  error : String
deriving DecidableEq, Repr

/-- Outcome of a `fetch` call: a parsed success body, a response with a
non-success status (`!res.ok`), or a rejected promise carrying the
thrown error message. -/
inductive HttpResult (α : Type) where
  | ok (v : α)
  | notOk
  | reject (msg : String)
deriving DecidableEq, Repr

/-- One issued network call, with the request data that varies per
invocation: the geocode query, the forecast coordinates, or the user
prompt of the completion request. -/
inductive NetCall where
  | geocode (q : String)
  | forecast (lat lon : Int)
  | completion (p : String)
deriving DecidableEq, Repr

/-- The environment of one invocation: the two configured secrets, the
current date, and a response oracle for each external service. -/
structure Env where
  openweatherKey : String
  xaiKey : String
  now : JsDate
  geocodeResp : String → HttpResult (List Geocode)
  forecastResp : Int → Int → HttpResult ForecastResponse
  completionResp : String → Except String ChatCompletion

/-! ### Message literals from the source -/

/-- Error message of the missing-credentials branch. -/
def apiKeysMissingMsg : String :=
  "API keys are missing. Please set VITE_OPENWEATHER_API_KEY and VITE_XAI_API_KEY in your .env file."

/-- Error message of the empty-location branch. -/
def locationMissingMsg : String := "Please provide city, state, and country."

/-- Error thrown when the geocode response has a non-success status. -/
def geocodeFailMsg : String := "Failed to geocode location"

/-- Error thrown when geocoding returns zero matches. -/
def locationNotFoundMsg : String := "Location not found"

/-- Error thrown when the forecast response has a non-success status. -/
def weatherFailMsg : String := "Failed to fetch weather"

/-- Error thrown when no forecast record matches the target date. -/
def noForecastMsg : String := "No forecast data for tomorrow"

/-- Placeholder advice used when the completion carries no content. -/
def noAdviceMsg : String := "No advice received"

/-- Fallback error message (`(err as Error).message || 'An error occurred'`). -/
def errMsg (m : String) : String :=
  if m = "" then "An error occurred" else m

/-! ### The pipeline stages -/

/-- One line of the wind block of the prompt, from the template
`` - ${w.time}: Speed ${w.speed} m/s, Direction ${w.direction}Â° ``.
The source file contains the character U+00C2 before the degree sign
U+00B0 (a mojibake present in the committed source). -/
def windLine (w : WindInfo) : String :=
  "- " ++ w.time ++ ": Speed " ++ toString w.speed ++ " m/s, Direction "
    ++ toString w.direction ++ "Â°"

/-- The fixed closing instruction of the prompt template. -/
def instructionText : String :=
  "Provide advice on the sail plan for this trip, including sail choices, safety considerations, and any other relevant tips based on the wind conditions."

/-- The composed prompt, mirroring the template literal of the source
line for line. -/
def mkPrompt (inputs : SailPlanInputs) (location targetDate : String)
    (windInfo : List WindInfo) : String :=
  "\nVessel information:\n- Boat model: " ++ inputs.boatModel
    ++ "\n- Available sails: " ++ inputs.availableSails
    ++ "\n\nTrip details:\n- Traveling to: " ++ location ++ " tomorrow ("
    ++ targetDate ++ ")\n\nPredicted wind for tomorrow:\n"
    ++ joinNl (windInfo.map windLine)
    ++ "\n\n" ++ instructionText ++ "\n"

/-- The forecast filter:
`forecastData.list.filter((item) => item.dt_txt.startsWith(tomorrowStr))`. -/
def forecastFilter (records : List ForecastItem) (targetDate : String) :
    List ForecastItem :=
  records.filter (fun item => jsStartsWith item.dt_txt targetDate)

/-- The wind-summary extraction mapping each kept record to
`{ time, speed, direction }`. -/
def toWindInfo (records : List ForecastItem) : List WindInfo :=
  records.map (fun item => ⟨item.dt_txt, item.wind.speed, item.wind.deg⟩)

/-- The content of the first completion choice, through the optional
chaining `completion.choices[0]?.message?.content`. -/
def firstContent (c : ChatCompletion) : Option String :=
  (c.choices.head?.bind ChatChoice.message).bind ChatMessage.content

/-- Advice extraction
`completion.choices[0]?.message?.content || 'No advice received'`;
the JavaScript `||` also replaces a present-but-empty string. -/
def extractAdvice (c : ChatCompletion) : String :=
  match firstContent c with
  | none => noAdviceMsg
  | some s => if s = "" then noAdviceMsg else s

/-- The composite location string
`` `${inputs.city},${inputs.state},${inputs.country}`.trim() ``. -/
def composedLocation (inputs : SailPlanInputs) : String :=
  jsTrim (inputs.city ++ "," ++ inputs.state ++ "," ++ inputs.country)

/-- The full handler `handleSubmit`, as a function from the invocation
environment, the form inputs and the previous component state to the
final component state paired with the trace of issued network calls. -/
def handleSubmit (env : Env) (inputs : SailPlanInputs) (prev : AppState) :
    AppState × List NetCall :=
  let st : AppState := { prev with loading := true, error := "", advice := "" }
  if env.openweatherKey = "" ∨ env.xaiKey = "" then
    ({ st with error := apiKeysMissingMsg, loading := false }, [])
  else
    let location := composedLocation inputs
    if location = "" then
      ({ st with error := locationMissingMsg, loading := false }, [])
    else
      match env.geocodeResp location with
      | .reject m =>
          ({ st with error := errMsg m, loading := false }, [.geocode location])
      | .notOk =>
          ({ st with error := geocodeFailMsg, loading := false }, [.geocode location])
      | .ok [] =>
          ({ st with error := locationNotFoundMsg, loading := false }, [.geocode location])
      | .ok (g :: _) =>
          match env.forecastResp g.lat g.lon with
          | .reject m =>
              ({ st with error := errMsg m, loading := false },
                [.geocode location, .forecast g.lat g.lon])
          | .notOk =>
              ({ st with error := weatherFailMsg, loading := false },
                [.geocode location, .forecast g.lat g.lon])
          | .ok forecastData =>
              let tStr := tomorrowStr env.now
              let tomorrowForecast := forecastFilter forecastData.list tStr
              if tomorrowForecast = [] then
                ({ st with error := noForecastMsg, loading := false },
                  [.geocode location, .forecast g.lat g.lon])
              else
                let windInfo := toWindInfo tomorrowForecast
                let p := mkPrompt inputs location tStr windInfo
                match env.completionResp p with
                | .error m =>
                    ({ st with error := errMsg m, loading := false },
                      [.geocode location, .forecast g.lat g.lon, .completion p])
                | .ok completion =>
                    ({ st with advice := extractAdvice completion, loading := false },
                      [.geocode location, .forecast g.lat g.lon, .completion p])

/-! ### Concrete fixtures used by witnesses and counterexamples -/

/-- A decidable occurrence check on character lists: `needle` occurs as
a contiguous block inside the second list. -/
def hasSub (n : List Char) : List Char → Bool
  | [] => n.isPrefixOf []
  | c :: t => n.isPrefixOf (c :: t) || hasSub n t

/-- The idle component state before any submission. -/
def idleState : AppState := ⟨"", false, ""⟩

/-- A fully successful environment: both keys configured, one geocode
match, one forecast record on the target date 1970-01-02, and a
completion whose first choice carries a message without content. -/
def okEnv : Env where
  openweatherKey := "k1"
  xaiKey := "k2"
  now := ⟨0, 0⟩
  geocodeResp := fun _ => .ok [⟨10, 20⟩]
  forecastResp := fun _ _ => .ok ⟨[⟨"1970-01-02 06:00:00", ⟨5, 200⟩⟩]⟩
  completionResp := fun _ => .ok ⟨[⟨some ⟨none⟩⟩]⟩

/-- Concrete form inputs used by witnesses. -/
def wInputs : SailPlanInputs := ⟨"Newport", "RI", "US", "J/24", "main"⟩

/-- Form inputs with every field empty. -/
def allEmptyInputs : SailPlanInputs := ⟨"", "", "", "", ""⟩

/-- Environment with configured keys whose geocode call returns a
non-success status. -/
def geocodeDownEnv : Env := { okEnv with geocodeResp := fun _ => .notOk }

/-- Environment whose first configured secret is empty. -/
def noKeyEnv : Env := { okEnv with openweatherKey := "" }

/-- Environment whose geocode call succeeds with zero matches. -/
def noMatchEnv : Env := { okEnv with geocodeResp := fun _ => .ok [] }

/-- Environment whose forecast succeeds but contains no record on the
target date 1970-01-02. -/
def staleForecastEnv : Env :=
  { okEnv with forecastResp := fun _ _ => .ok ⟨[⟨"1999-05-05 00:00:00", ⟨5, 200⟩⟩]⟩ }

/-! ### Helper lemmas -/

/-- Strings with equal character lists are equal. -/
theorem string_eq_of_data_eq {s t : String} (h : s.data = t.data) : s = t := by
  cases s; cases t; exact congrArg String.mk h

/-- Characterization of the boolean prefix test on character lists. -/
theorem isPrefixOf_iff_exists : ∀ (l₁ l₂ : List Char),
    l₁.isPrefixOf l₂ = true ↔ ∃ r, l₂ = l₁ ++ r
  | [], l₂ => by simp [List.isPrefixOf]
  | a :: as, [] => by simp [List.isPrefixOf]
  | a :: as, b :: bs => by
    simp only [List.isPrefixOf, Bool.and_eq_true, beq_iff_eq,
      isPrefixOf_iff_exists as bs, List.cons_append, List.cons.injEq]
    constructor
    · rintro ⟨rfl, r, rfl⟩; exact ⟨r, rfl, rfl⟩
    · rintro ⟨r, rfl, rfl⟩; exact ⟨rfl, r, rfl⟩

/-- Characterization of the occurrence check on character lists. -/
theorem hasSub_iff : ∀ (n h : List Char),
    hasSub n h = true ↔ ∃ a b, h = a ++ n ++ b
  | n, [] => by
    simp only [hasSub, isPrefixOf_iff_exists]
    constructor
    · rintro ⟨r, hr⟩
      rcases List.append_eq_nil.mp hr.symm with ⟨rfl, rfl⟩
      exact ⟨[], [], rfl⟩
    · rintro ⟨a, b, hab⟩
      rcases List.append_eq_nil.mp hab.symm with ⟨h1, rfl⟩
      rcases List.append_eq_nil.mp h1 with ⟨rfl, rfl⟩
      exact ⟨[], rfl⟩
  | n, c :: t => by
    simp only [hasSub, Bool.or_eq_true, isPrefixOf_iff_exists, hasSub_iff n t]
    constructor
    · rintro (⟨r, hr⟩ | ⟨a, b, hab⟩)
      · exact ⟨[], r, by simp [hr]⟩
      · exact ⟨c :: a, b, by simp [hab]⟩
    · rintro ⟨a, b, hab⟩
      cases a with
      | nil => exact Or.inl ⟨b, by simpa using hab⟩
      | cons x xs =>
        simp only [List.cons_append, List.cons.injEq] at hab
        exact Or.inr ⟨xs, b, hab.2⟩

/-- The occurrence proposition on strings matches the decidable check on
their character lists. -/
theorem strOccurs_iff_hasSub (n h : String) :
    strOccurs n h ↔ hasSub n.data h.data = true := by
  rw [hasSub_iff]
  constructor
  · rintro ⟨a, b, rfl⟩
    exact ⟨a.data, b.data, by simp [String.data_append]⟩
  · rintro ⟨a, b, hd⟩
    refine ⟨⟨a⟩, ⟨b⟩, string_eq_of_data_eq ?_⟩
    simp [String.data_append, hd]

/-- The modelled `startsWith` holds exactly when the characters of the
second string are a prefix of the characters of the first. -/
theorem jsStartsWith_iff (s pre : String) :
    jsStartsWith s pre = true ↔ ∃ r, s.data = pre.data ++ r := by
  rw [jsStartsWith, isPrefixOf_iff_exists]

/-- Every member of a joined list occurs verbatim inside the join. -/
theorem joinNl_occurs : ∀ (l : List String) (s : String), s ∈ l →
    ∃ a b, joinNl l = a ++ s ++ b
  | [], s, h => absurd h (List.not_mem_nil s)
  | [x], s, h => by
    simp only [List.mem_singleton] at h
    subst h
    exact ⟨"", "", by simp [joinNl]⟩
  | x :: y :: xs, s, h => by
    rcases List.mem_cons.mp h with rfl | h2
    · exact ⟨"", "\n" ++ joinNl (y :: xs), by simp [joinNl, String.append_assoc]⟩
    · obtain ⟨a, b, hab⟩ := joinNl_occurs (y :: xs) s h2
      exact ⟨x ++ "\n" ++ a, b, by simp [joinNl, hab, String.append_assoc]⟩

/-- A completion without first-choice content (or with empty content)
extracts to the placeholder advice. -/
theorem extractAdvice_of_blank (c : ChatCompletion)
    (h : firstContent c = none ∨ firstContent c = some "") :
    extractAdvice c = noAdviceMsg := by
  rcases h with h | h <;> simp [extractAdvice, h]

/-! ### Claim C1 -/

/-- C1, counterexample: at the instant 19:00 UTC on 1970-01-01 observed
from a caller at UTC+10 (local reading 05:00 on 1970-01-02), the code
computes the target date `1970-01-02` via `toISOString` (a UTC
rendering), while the local-calendar day after the local current date is
`1970-01-03`. The claim that the two always agree is therefore false. -/
theorem c1_counterexample :
    tomorrowStr ⟨1140, 600⟩ ≠ specLocalTargetDate ⟨1140, 600⟩ := by decide

/-- C1, amended: the target date is the current instant advanced by one
local calendar day and then rendered as `YYYY-MM-DD` in UTC (through
`toISOString`), not in the local calendar; the rendering agrees with the
local-calendar day after the local current date whenever the caller's
UTC offset is zero. -/
theorem c1_target_date_agrees_when_utc (d : JsDate) (h : d.tzOffsetMin = 0) :
    tomorrowStr d = specLocalTargetDate d := by
  simp only [tomorrowStr, specLocalTargetDate, isoDateString, JsDate.addOneLocalDay,
    JsDate.localMin, h, add_zero]
  congr 2
  have h2 := Int.add_mul_ediv_right d.utcMin 1 (show (1440 : Int) ≠ 0 by norm_num)
  simpa using h2

/-- C1, witness: the amended theorem applied at the epoch instant with
offset zero. -/
theorem c1_witness :
    JsDate.tzOffsetMin ⟨0, 0⟩ = 0 ∧ tomorrowStr ⟨0, 0⟩ = specLocalTargetDate ⟨0, 0⟩ :=
  ⟨rfl, c1_target_date_agrees_when_utc ⟨0, 0⟩ rfl⟩

/-! ### Claim C2 -/

/-- C2, divergence: with city, state and country all empty (and both
keys configured), the composite location string is `",,"`, which is not
empty after trimming, so the handler does not take the validation branch
and issues the geocode network call; the run ends with the geocode-stage
error rather than the validation error. The emptiness check on
`` `${city},${state},${country}`.trim() `` can never fire. -/
theorem c2_validation_branch_dead :
    composedLocation allEmptyInputs = ",," ∧
    (handleSubmit geocodeDownEnv allEmptyInputs idleState).2 = [NetCall.geocode ",,"] ∧
    (handleSubmit geocodeDownEnv allEmptyInputs idleState).1.error = geocodeFailMsg := by
  refine ⟨rfl, ?_, ?_⟩ <;> rfl

/-! ### Claim C5 -/

/-- C5: whenever either configured secret is empty, the handler ends in
the failed state carrying the missing-keys message, with no advisory
text and an empty network-call trace. -/
theorem c5_missing_keys_no_calls (env : Env) (inputs : SailPlanInputs)
    (prev : AppState) (h : env.openweatherKey = "" ∨ env.xaiKey = "") :
    handleSubmit env inputs prev = (⟨"", false, apiKeysMissingMsg⟩, []) := by
  rcases h with h | h <;> simp [handleSubmit, h]

/-- C5, witness: the theorem applied to an environment whose weather key
is empty. -/
theorem c5_witness :
    (noKeyEnv.openweatherKey = "" ∨ noKeyEnv.xaiKey = "") ∧
    handleSubmit noKeyEnv wInputs idleState = (⟨"", false, apiKeysMissingMsg⟩, []) :=
  ⟨Or.inl rfl, c5_missing_keys_no_calls noKeyEnv wInputs idleState (Or.inl rfl)⟩

/-! ### Claim C3 -/

set_option maxRecDepth 16384 in
/-- C3, counterexample: for the request with boat model `J/24`, one
wind-summary entry at time `2026-10-12 00:00:00` with speed 3 and
direction 180, the text `2026-10-12 00:00:00: Speed 3 m/s, Direction
180°` (degree character U+00B0, as the claim formats it) does not occur
anywhere in the composed prompt — so no line of the prompt is formatted
as the claim states. The actual wind lines carry a leading `- ` and a
stray U+00C2 before the degree sign. -/
theorem c3_counterexample :
    ¬ strOccurs "2026-10-12 00:00:00: Speed 3 m/s, Direction 180°"
      (mkPrompt ⟨"Annapolis", "MD", "US", "J/24", "main, jib"⟩ "Annapolis,MD,US"
        "2026-10-12" [⟨"2026-10-12 00:00:00", 3, 180⟩]) := by
  rw [strOccurs_iff_hasSub]
  decide

/-- C3, amended: the composed prompt embeds verbatim the boat model, the
available-sails description, the destination location text and the
target date; each wind-summary entry `w` contributes the line
`- <time>: Speed <speed> m/s, Direction <direction>Â°` (`windLine w`,
with a leading `- ` and the mojibake sequence U+00C2 U+00B0 in place of
a bare degree sign) which occurs verbatim in the prompt; and the prompt
ends with the fixed sail-plan instruction followed by a newline. -/
theorem c3_prompt_contents (inputs : SailPlanInputs) (location targetDate : String)
    (ws : List WindInfo) :
    strOccurs inputs.boatModel (mkPrompt inputs location targetDate ws) ∧
    strOccurs inputs.availableSails (mkPrompt inputs location targetDate ws) ∧
    strOccurs location (mkPrompt inputs location targetDate ws) ∧
    strOccurs targetDate (mkPrompt inputs location targetDate ws) ∧
    (∀ w ∈ ws, strOccurs (windLine w) (mkPrompt inputs location targetDate ws)) ∧
    strEndsIn (instructionText ++ "\n") (mkPrompt inputs location targetDate ws) := by
  refine ⟨⟨"\nVessel information:\n- Boat model: ",
      "\n- Available sails: " ++ inputs.availableSails
        ++ "\n\nTrip details:\n- Traveling to: " ++ location ++ " tomorrow ("
        ++ targetDate ++ ")\n\nPredicted wind for tomorrow:\n"
        ++ joinNl (ws.map windLine) ++ "\n\n" ++ instructionText ++ "\n", ?_⟩,
    ⟨"\nVessel information:\n- Boat model: " ++ inputs.boatModel
        ++ "\n- Available sails: ",
      "\n\nTrip details:\n- Traveling to: " ++ location ++ " tomorrow ("
        ++ targetDate ++ ")\n\nPredicted wind for tomorrow:\n"
        ++ joinNl (ws.map windLine) ++ "\n\n" ++ instructionText ++ "\n", ?_⟩,
    ⟨"\nVessel information:\n- Boat model: " ++ inputs.boatModel
        ++ "\n- Available sails: " ++ inputs.availableSails
        ++ "\n\nTrip details:\n- Traveling to: ",
      " tomorrow (" ++ targetDate ++ ")\n\nPredicted wind for tomorrow:\n"
        ++ joinNl (ws.map windLine) ++ "\n\n" ++ instructionText ++ "\n", ?_⟩,
    ⟨"\nVessel information:\n- Boat model: " ++ inputs.boatModel
        ++ "\n- Available sails: " ++ inputs.availableSails
        ++ "\n\nTrip details:\n- Traveling to: " ++ location ++ " tomorrow (",
      ")\n\nPredicted wind for tomorrow:\n"
        ++ joinNl (ws.map windLine) ++ "\n\n" ++ instructionText ++ "\n", ?_⟩,
    ?_, ⟨"\nVessel information:\n- Boat model: " ++ inputs.boatModel
        ++ "\n- Available sails: " ++ inputs.availableSails
        ++ "\n\nTrip details:\n- Traveling to: " ++ location ++ " tomorrow ("
        ++ targetDate ++ ")\n\nPredicted wind for tomorrow:\n"
        ++ joinNl (ws.map windLine) ++ "\n\n", ?_⟩⟩
  · simp [mkPrompt, String.append_assoc]
  · simp [mkPrompt, String.append_assoc]
  · simp [mkPrompt, String.append_assoc]
  · simp [mkPrompt, String.append_assoc]
  · intro w hw
    obtain ⟨a, b, hab⟩ :=
      joinNl_occurs (ws.map windLine) (windLine w) (List.mem_map_of_mem windLine hw)
    refine ⟨"\nVessel information:\n- Boat model: " ++ inputs.boatModel
        ++ "\n- Available sails: " ++ inputs.availableSails
        ++ "\n\nTrip details:\n- Traveling to: " ++ location ++ " tomorrow ("
        ++ targetDate ++ ")\n\nPredicted wind for tomorrow:\n" ++ a,
      b ++ ("\n\n" ++ instructionText ++ "\n"), ?_⟩
    simp [mkPrompt, hab, String.append_assoc]
  · simp [mkPrompt, String.append_assoc]

/-! ### Claim C4 -/

/-- C4: when all network stages succeed and the first completion choice
carries no message content (absent, or present but empty), the handler
ends in the succeeded state with advice exactly `"No advice received"`
and an empty error — an empty-but-present completion is not an error. -/
theorem c4_blank_completion_succeeds (env : Env) (inputs : SailPlanInputs)
    (prev : AppState) (g : Geocode) (gs : List Geocode) (fr : ForecastResponse)
    (comp : ChatCompletion)
    (hk1 : env.openweatherKey ≠ "") (hk2 : env.xaiKey ≠ "")
    (hloc : composedLocation inputs ≠ "")
    (hg : env.geocodeResp (composedLocation inputs) = .ok (g :: gs))
    (hf : env.forecastResp g.lat g.lon = .ok fr)
    (hne : forecastFilter fr.list (tomorrowStr env.now) ≠ [])
    (hc : env.completionResp (mkPrompt inputs (composedLocation inputs)
      (tomorrowStr env.now) (toWindInfo (forecastFilter fr.list (tomorrowStr env.now))))
      = .ok comp)
    (hcontent : firstContent comp = none ∨ firstContent comp = some "") :
    (handleSubmit env inputs prev).1 = ⟨noAdviceMsg, false, ""⟩ := by
  simp [handleSubmit, hk1, hk2, hloc, hg, hf, hne, hc,
    extractAdvice_of_blank comp hcontent]

/-- C4, witness: the theorem applied to the fully successful concrete
environment whose completion message has no content. -/
theorem c4_witness :
    (handleSubmit okEnv wInputs idleState).1 = ⟨noAdviceMsg, false, ""⟩ :=
  c4_blank_completion_succeeds okEnv wInputs idleState ⟨10, 20⟩ []
    ⟨[⟨"1970-01-02 06:00:00", ⟨5, 200⟩⟩]⟩ ⟨[⟨some ⟨none⟩⟩]⟩
    (by decide) (by decide) (by decide) rfl rfl (by decide) rfl (Or.inl rfl)

/-! ### Claim C6 -/

/-- C6: if geocoding succeeds with zero matches, the handler ends failed
with the location-not-found message and the trace holds only the geocode
call (no forecast and no completion call); and when geocoding succeeds
with at least one match, the outcome depends only on the first match —
two environments equal everywhere except that their geocode responses
carry different tails behind the same first match produce identical
outcomes. -/
theorem c6_geocode_empty_and_first_match :
    (∀ (env : Env) (inputs : SailPlanInputs) (prev : AppState),
      env.openweatherKey ≠ "" → env.xaiKey ≠ "" → composedLocation inputs ≠ "" →
      env.geocodeResp (composedLocation inputs) = .ok [] →
      handleSubmit env inputs prev =
        (⟨"", false, locationNotFoundMsg⟩, [NetCall.geocode (composedLocation inputs)])) ∧
    (∀ (env env2 : Env) (inputs : SailPlanInputs) (prev : AppState)
      (g : Geocode) (rest rest2 : List Geocode),
      env2.openweatherKey = env.openweatherKey → env2.xaiKey = env.xaiKey →
      env2.now = env.now → env2.forecastResp = env.forecastResp →
      env2.completionResp = env.completionResp →
      env.geocodeResp (composedLocation inputs) = .ok (g :: rest) →
      env2.geocodeResp (composedLocation inputs) = .ok (g :: rest2) →
      handleSubmit env inputs prev = handleSubmit env2 inputs prev) := by
  constructor
  · intro env inputs prev hk1 hk2 hloc hg
    simp [handleSubmit, hk1, hk2, hloc, hg]
  · intro env env2 inputs prev g rest rest2 h1 h2 h3 h4 h5 hg hg2
    unfold handleSubmit
    dsimp only
    rw [h1, h2, h3, h4, h5, hg, hg2]

/-- C6, witness: the empty-match part of the theorem applied to the
concrete environment whose geocode call returns zero matches. -/
theorem c6_witness :
    handleSubmit noMatchEnv wInputs idleState =
      (⟨"", false, locationNotFoundMsg⟩, [NetCall.geocode (composedLocation wInputs)]) :=
  c6_geocode_empty_and_first_match.1 noMatchEnv wInputs idleState
    (by decide) (by decide) (by decide) rfl

/-! ### Claim C7 -/

/-- C7: when both keys are set, geocoding succeeds with a match and the
forecast succeeds but no record's timestamp begins with the computed
target-date string, the handler ends failed with the no-forecast message
and the trace holds only the geocode and forecast calls — the completion
call is never issued and no fallback to adjacent days occurs. -/
theorem c7_no_forecast_for_target (env : Env) (inputs : SailPlanInputs)
    (prev : AppState) (g : Geocode) (gs : List Geocode) (fr : ForecastResponse)
    (hk1 : env.openweatherKey ≠ "") (hk2 : env.xaiKey ≠ "")
    (hloc : composedLocation inputs ≠ "")
    (hg : env.geocodeResp (composedLocation inputs) = .ok (g :: gs))
    (hf : env.forecastResp g.lat g.lon = .ok fr)
    (hnone : ∀ item ∈ fr.list, jsStartsWith item.dt_txt (tomorrowStr env.now) = false) :
    handleSubmit env inputs prev =
      (⟨"", false, noForecastMsg⟩,
        [NetCall.geocode (composedLocation inputs), NetCall.forecast g.lat g.lon]) := by
  have hfilter : forecastFilter fr.list (tomorrowStr env.now) = [] := by
    rw [forecastFilter, List.filter_eq_nil_iff]
    intro a ha
    simp [hnone a ha]
  simp [handleSubmit, hk1, hk2, hloc, hg, hf, hfilter]

/-- C7, witness: the theorem applied to the concrete environment whose
forecast has one record on 1999-05-05 while the target date is
1970-01-02. -/
theorem c7_witness :
    handleSubmit staleForecastEnv wInputs idleState =
      (⟨"", false, noForecastMsg⟩,
        [NetCall.geocode (composedLocation wInputs), NetCall.forecast 10 20]) :=
  c7_no_forecast_for_target staleForecastEnv wInputs idleState ⟨10, 20⟩ []
    ⟨[⟨"1999-05-05 00:00:00", ⟨5, 200⟩⟩]⟩
    (by decide) (by decide) (by decide) rfl rfl (by decide)

/-! ### Claim C8 -/

/-- C8: the forecast filter keeps exactly the records whose timestamp
text begins with the target-date string — membership in the filtered
sequence is equivalent to membership in the input plus the textual
prefix condition on `dt_txt` — and the kept records form a sublist of
the input, hence appear in the same relative order as delivered. -/
theorem c8_filter_prefix_and_order (records : List ForecastItem) (targetDate : String) :
    (∀ r, r ∈ forecastFilter records targetDate ↔
      r ∈ records ∧ ∃ rest, r.dt_txt.data = targetDate.data ++ rest) ∧
    (forecastFilter records targetDate).Sublist records := by
  constructor
  · intro r
    rw [forecastFilter, List.mem_filter, jsStartsWith_iff]
  · rw [forecastFilter]
    exact List.filter_sublist records

/-! ### Claim C9 -/

/-- C9: the handler result does not depend on the previous component
state (every invocation first clears the prior result and error), and no
final state carries both a non-empty advisory and a non-empty error:
every branch leaves the advice empty or the error empty. -/
theorem c9_clears_and_never_both (env : Env) (inputs : SailPlanInputs) :
    (∀ prev prev2, handleSubmit env inputs prev = handleSubmit env inputs prev2) ∧
    (∀ prev, (handleSubmit env inputs prev).1.advice = "" ∨
      (handleSubmit env inputs prev).1.error = "") := by
  constructor
  · intro prev prev2; rfl
  · intro prev
    unfold handleSubmit
    dsimp only
    repeat' split
    all_goals simp

/-! ### Claim C10 -/

/-- C10: on every completion path — missing keys, empty location, any
stage failure, or success — the loading flag of the returned state is
false. -/
theorem c10_loading_reset (env : Env) (inputs : SailPlanInputs) (prev : AppState) :
    (handleSubmit env inputs prev).1.loading = false := by
  unfold handleSubmit
  dsimp only
  repeat' split
  all_goals rfl

end SailPlan
